import Mathlib

/-!
# Verification of the query-routing and dual-path execution core of `src/app.py`

This file is a shallow embedding, in Lean 4, of the decision logic of the
repository's single source file `src/app.py`:

* `simple_calculator` (lines 43-52): wraps Python `eval` and formats the
  result or the caught exception as a string;
* `run_agent` (lines 55-79): the routed ("agentic") path — an inline
  intent classifier (line 62), an inline expression extractor
  (lines 64-65), the calculator call, and the generation fallback with
  `max_new_tokens=50`;
* `run_non_agentic_llm` (lines 82-96): the direct path, always generating
  with `max_new_tokens=100`;
* the button handler (lines 115-123) that runs both paths on one input.

Python string primitives (`str.lower`, `str.replace`, `str.strip`,
substring `in`) are modelled on `List Char` for the ASCII fragment the
program manipulates, so that every definition is executable and every
concrete evaluation reduces in the kernel.  Python `eval` is modelled at
two levels.  `pyEval` covers the arithmetic fragment the in-grammar
claims exercise — int and float literals, the binary operators
`+ - * /`, unary sign, grouping parentheses, names, calls — on which
evaluation terminates and every failure derives from `Exception`.
`pyEvalFull` is the model of record for the calculator's interface: its
name environment also contains the quitter builtins `exit`/`quit` that
CPython defines in `eval`'s environment, and it distinguishes the
BaseException-only `SystemExit` their call raises, which the source's
`except Exception` handler does not catch (`simple_calculator_run`
exposes that escape channel).  `eval`'s remaining behaviors — other
builtins, ambient mutable state such as the `random` module's RNG,
non-terminating expressions — are outside both models; no confirmed
claim depends on them.  Python floats are modelled as exact rationals
(`PyFloat`); every arithmetic value the claims evaluate is exactly
representable, so no rounding is involved.
-/

/-- One step of Euclid's algorithm with explicit fuel, so that the kernel
can reduce it (structural recursion on the fuel). -/
def gcdFuel : Nat → Nat → Nat → Nat
  | 0, _, n => n
  | _ + 1, 0, n => n
  | f + 1, Nat.succ m, n => gcdFuel f (n % Nat.succ m) (Nat.succ m)

/-- Greatest common divisor; fuel `m + 1` always suffices because the
first argument strictly decreases at every step. -/
def natGcd (m n : Nat) : Nat := gcdFuel (m + 1) m n

/-- Model of Python `str.lower` (ASCII fragment): lower each character
with the core `Char.toLower`, which maps exactly the basic latin capital
letters down by 32 code points, as CPython does on this fragment. -/
def pyLower (s : String) : String := String.mk (s.data.map Char.toLower)

/-- `startsWithList s pat`: `pat` is a leading segment of `s`. -/
def startsWithList : List Char → List Char → Bool
  | _, [] => true
  | [], _ :: _ => false
  | a :: as, b :: bs => a == b && startsWithList as bs

/-- `hasSubList s pat`: `pat` occurs contiguously in `s` (Python's
substring `in`, on char lists). -/
def hasSubList : List Char → List Char → Bool
  | [], pat => pat.isEmpty
  | a :: as, pat => startsWithList (a :: as) pat || hasSubList as pat

/-- Model of Python's substring containment `pat in s`. -/
def strContains (s pat : String) : Bool := hasSubList s.data pat.data

/-- Replacement scan of Python `str.replace` (all occurrences, left to
right, non-overlapping, the replacement is not rescanned), with fuel. -/
def replaceAux : Nat → List Char → List Char → List Char → List Char
  | 0, s, _, _ => s
  | _ + 1, [], _, _ => []
  | f + 1, a :: as, pat, repl =>
    if startsWithList (a :: as) pat then
      repl ++ replaceAux f (List.drop (pat.length - 1) as) pat repl
    else
      a :: replaceAux f as pat repl

/-- Model of Python `str.replace old new` (for non-empty `old`, which is
the only way the source uses it). -/
def pyReplace (s pat repl : String) : String :=
  if pat.data.isEmpty then s
  else String.mk (replaceAux (s.data.length + 1) s.data pat.data repl.data)

/-- Python whitespace for `str.strip` (ASCII fragment). -/
def isPySpace (c : Char) : Bool :=
  c = ' ' || c = '\t' || c = '\n' || c = '\r'

/-- Model of Python `str.strip()`: drop leading and trailing whitespace. -/
def pyStrip (s : String) : String :=
  String.mk (((s.data.dropWhile isPySpace).reverse.dropWhile isPySpace).reverse)

/-- The expression extractor inlined at `src/app.py` lines 64-65:
lower-case the whole query, remove every occurrence of `"calculate"`,
then of `"what is"`, strip, then remove every `"?"` and every occurrence
of `"the result of"`, and strip again. -/
def extractExpression (query : String) : String :=
  let e1 := pyStrip (pyReplace (pyReplace (pyLower query) "calculate" "") "what is" "")
  pyStrip (pyReplace (pyReplace e1 "?" "") "the result of" "")

/-- The routing condition of `src/app.py` line 62:
`"calculate" in query.lower() or ("what is" in query.lower() and
any(op in query for op in ["+", "-", "*", "/"]))`. -/
def isCalcQuery (query : String) : Bool :=
  strContains (pyLower query) "calculate" ||
    (strContains (pyLower query) "what is" &&
      (["+", "-", "*", "/"].any fun op => strContains query op))

/-- The spec's Intent variant: the routed path either invokes the tool
with an extracted expression, or falls back to generation on a prompt. -/
inductive Intent where
  | toolInvocation (expression : String)
  | generationRequest (prompt : String)
deriving DecidableEq, Repr

/-- The intent classifier: the branch structure of `run_agent`
(`src/app.py` lines 62-68) — the condition of line 62 selects the tool
branch with the extracted expression, otherwise the query itself is the
generation prompt (line 70 passes `query` unchanged). -/
def classify (query : String) : Intent :=
  if isCalcQuery query then Intent.toolInvocation (extractExpression query)
  else Intent.generationRequest query

example : extractExpression "What is 15 * 3?" = "15 * 3" := by decide
example : extractExpression "Calculate (20 + 5) / 5." = "(20 + 5) / 5." := by decide
example : extractExpression "Calculate 2 + A" = "2 + a" := by decide
example : isCalcQuery "Tell me a short story about a brave knight." = false := by decide
example : isCalcQuery "What is 15 * 3?" = true := by decide

/-- A Python float value, modelled as an exact rational in lowest terms
with a positive denominator.  Every float the verified claims evaluate
(integer-valued literals and exact quotients) is represented exactly, so
the model introduces no rounding. -/
structure PyFloat where
  num : Int
  den : Nat
deriving DecidableEq, Repr

/-- Build a `PyFloat` in lowest terms from a numerator and a (nonzero)
denominator. -/
def mkPyFloat (n : Int) (d : Nat) : PyFloat :=
  let g := natGcd n.natAbs d
  if g = 0 then ⟨n, d⟩ else ⟨n / (g : Int), d / g⟩

def pfNeg (x : PyFloat) : PyFloat := ⟨-x.num, x.den⟩

def pfAbs (x : PyFloat) : PyFloat := ⟨(x.num.natAbs : Int), x.den⟩

def pfAdd (x y : PyFloat) : PyFloat :=
  mkPyFloat (x.num * (y.den : Int) + y.num * (x.den : Int)) (x.den * y.den)

def pfSub (x y : PyFloat) : PyFloat := pfAdd x (pfNeg y)

def pfMul (x y : PyFloat) : PyFloat := mkPyFloat (x.num * y.num) (x.den * y.den)

/-- Division of floats; the caller has already ruled out `y.num = 0`. -/
def pfDiv (x y : PyFloat) : PyFloat :=
  let n := x.num * (y.den : Int)
  let d := y.num * (x.den : Int)
  mkPyFloat (if d < 0 then -n else n) d.natAbs

/-- Run-time values of the modelled Python fragment: arbitrary-precision
integers, floats, the builtin function `abs`, and the `site.Quitter`
object that CPython binds to the names `exit` and `quit` in `eval`'s
builtins (calling it raises `SystemExit`). -/
inductive PyVal where
  | int (n : Int)
  | float (x : PyFloat)
  | builtinAbs
  | quitter
deriving DecidableEq, Repr

/-- Errors `eval` can raise on the modelled fragment, with the message
that Python's `str(e)` yields (the f-string at `src/app.py` line 52
interpolates exactly that message). -/
inductive PyErr where
  | synErr
  | zeroDiv (msg : String)
  | nameErr (nm : String)
  | typeErr (msg : String)
deriving DecidableEq, Repr

def pyErrMsg : PyErr → String
  | PyErr.synErr => "invalid syntax (<string>, line 1)"
  | PyErr.zeroDiv m => m
  | PyErr.nameErr nm => "name \x27" ++ nm ++ "\x27 is not defined"
  | PyErr.typeErr m => m

/-- Tokens of the modelled Python expression fragment. -/
inductive Tok where
  | intTok (n : Nat)
  | floatTok (x : PyFloat)
  | identTok (s : String)
  | plusTok | minusTok | starTok | slashTok | lparTok | rparTok
deriving DecidableEq, Repr

def digitVal (c : Char) : Nat := c.toNat - '0'.toNat

/-- Consume a maximal run of decimal digits. -/
def lexDigits : List Char → (List Nat × List Char)
  | [] => ([], [])
  | c :: cs =>
    if c.isDigit then
      let (ds, rest) := lexDigits cs
      (digitVal c :: ds, rest)
    else ([], c :: cs)

def digitsToNat (ds : List Nat) : Nat := ds.foldl (fun acc d => 10 * acc + d) 0

/-- The float literal `intPart.fracDigits` as an exact rational. -/
def mkFloatLit (intPart : Nat) (fracDigits : List Nat) : PyFloat :=
  mkPyFloat ((intPart : Int) * (10 ^ fracDigits.length : Nat) + (digitsToNat fracDigits : Int))
    (10 ^ fracDigits.length)

def isIdentStart (c : Char) : Bool := c.isAlpha || c = '_'
def isIdentChar (c : Char) : Bool := c.isAlpha || c.isDigit || c = '_'

/-- Consume a maximal identifier run. -/
def lexIdent : List Char → (List Char × List Char)
  | [] => ([], [])
  | c :: cs =>
    if isIdentChar c then
      let (id, rest) := lexIdent cs
      (c :: id, rest)
    else ([], c :: cs)

/-- Tokenizer for the modelled fragment; every step consumes at least one
character, so fuel `length + 1` never runs out.  A character outside the
fragment is a `SyntaxError`, as in CPython's tokenizer. -/
def tokenizeAux : Nat → List Char → Except PyErr (List Tok)
  | 0, _ => Except.error PyErr.synErr
  | _ + 1, [] => Except.ok []
  | f + 1, c :: cs =>
    if isPySpace c then tokenizeAux f cs
    else if c.isDigit then
      let (ds, rest) := lexDigits (c :: cs)
      match rest with
      | '.' :: rest2 =>
        let (fs, rest3) := lexDigits rest2
        (tokenizeAux f rest3).map (fun toks => Tok.floatTok (mkFloatLit (digitsToNat ds) fs) :: toks)
      | _ =>
        (tokenizeAux f rest).map (fun toks => Tok.intTok (digitsToNat ds) :: toks)
    else if c = '.' && (match cs with | d :: _ => d.isDigit | [] => false) then
      let (fs, rest) := lexDigits cs
      (tokenizeAux f rest).map (fun toks => Tok.floatTok (mkFloatLit 0 fs) :: toks)
    else if isIdentStart c then
      let (id, rest) := lexIdent (c :: cs)
      (tokenizeAux f rest).map (fun toks => Tok.identTok (String.mk id) :: toks)
    else if c = '+' then (tokenizeAux f cs).map (Tok.plusTok :: ·)
    else if c = '-' then (tokenizeAux f cs).map (Tok.minusTok :: ·)
    else if c = '*' then (tokenizeAux f cs).map (Tok.starTok :: ·)
    else if c = '/' then (tokenizeAux f cs).map (Tok.slashTok :: ·)
    else if c = '(' then (tokenizeAux f cs).map (Tok.lparTok :: ·)
    else if c = ')' then (tokenizeAux f cs).map (Tok.rparTok :: ·)
    else Except.error PyErr.synErr

def tokenize (s : String) : Except PyErr (List Tok) :=
  tokenizeAux (s.data.length + 1) s.data

/-- Abstract syntax of the modelled Python expression fragment. -/
inductive BinOp where
  | add | sub | mul | div
deriving DecidableEq, Repr

inductive PyExpr where
  | intLit (n : Nat)
  | floatLit (x : PyFloat)
  | name (s : String)
  | pos (e : PyExpr)
  | neg (e : PyExpr)
  | bin (op : BinOp) (a b : PyExpr)
  | call (f : PyExpr) (arg : PyExpr)
  | call0 (f : PyExpr)
deriving DecidableEq, Repr

/-- Parser states: `expr`/`term` parse at the `+ -` and `* /` precedence
levels, the `Rest` states fold the left-associative operator chains,
`factor` handles unary sign, `atom` handles literals, names, calls and
parentheses. -/
inductive PMode where
  | expr
  | exprRest (acc : PyExpr)
  | term
  | termRest (acc : PyExpr)
  | factor
  | atom
deriving Repr

/-- Recursive-descent parser for the fragment, driven by fuel (structural
recursion on `Nat`); running out of fuel is reported as a `SyntaxError`,
and `parseFuel` below provides enough fuel for any token list. -/
def parseGo : Nat → PMode → List Tok → Except PyErr (PyExpr × List Tok)
  | 0, _, _ => Except.error PyErr.synErr
  | f + 1, PMode.expr, ts =>
    (parseGo f PMode.term ts).bind (fun (a, r) => parseGo f (PMode.exprRest a) r)
  | f + 1, PMode.exprRest acc, ts =>
    match ts with
    | Tok.plusTok :: ts1 =>
      (parseGo f PMode.term ts1).bind
        (fun (b, r) => parseGo f (PMode.exprRest (PyExpr.bin BinOp.add acc b)) r)
    | Tok.minusTok :: ts1 =>
      (parseGo f PMode.term ts1).bind
        (fun (b, r) => parseGo f (PMode.exprRest (PyExpr.bin BinOp.sub acc b)) r)
    | _ => Except.ok (acc, ts)
  | f + 1, PMode.term, ts =>
    (parseGo f PMode.factor ts).bind (fun (a, r) => parseGo f (PMode.termRest a) r)
  | f + 1, PMode.termRest acc, ts =>
    match ts with
    | Tok.starTok :: ts1 =>
      (parseGo f PMode.factor ts1).bind
        (fun (b, r) => parseGo f (PMode.termRest (PyExpr.bin BinOp.mul acc b)) r)
    | Tok.slashTok :: ts1 =>
      (parseGo f PMode.factor ts1).bind
        (fun (b, r) => parseGo f (PMode.termRest (PyExpr.bin BinOp.div acc b)) r)
    | _ => Except.ok (acc, ts)
  | f + 1, PMode.factor, ts =>
    match ts with
    | Tok.plusTok :: ts1 =>
      (parseGo f PMode.factor ts1).map (fun (e, r) => (PyExpr.pos e, r))
    | Tok.minusTok :: ts1 =>
      (parseGo f PMode.factor ts1).map (fun (e, r) => (PyExpr.neg e, r))
    | _ => parseGo f PMode.atom ts
  | f + 1, PMode.atom, ts =>
    match ts with
    | Tok.intTok n :: ts1 => Except.ok (PyExpr.intLit n, ts1)
    | Tok.floatTok x :: ts1 => Except.ok (PyExpr.floatLit x, ts1)
    | Tok.identTok s :: Tok.lparTok :: Tok.rparTok :: ts1 =>
      Except.ok (PyExpr.call0 (PyExpr.name s), ts1)
    | Tok.identTok s :: Tok.lparTok :: ts1 =>
      (parseGo f PMode.expr ts1).bind
        (fun (a, r) =>
          match r with
          | Tok.rparTok :: r2 => Except.ok (PyExpr.call (PyExpr.name s) a, r2)
          | _ => Except.error PyErr.synErr)
    | Tok.identTok s :: ts1 => Except.ok (PyExpr.name s, ts1)
    | Tok.lparTok :: ts1 =>
      (parseGo f PMode.expr ts1).bind
        (fun (a, r) =>
          match r with
          | Tok.rparTok :: r2 => Except.ok (a, r2)
          | _ => Except.error PyErr.synErr)
    | _ => Except.error PyErr.synErr

def parseFuel (ts : List Tok) : Nat := 8 * ts.length + 8

def toPF : PyVal → Option PyFloat
  | PyVal.int n => some ⟨n, 1⟩
  | PyVal.float x => some x
  | _ => none

/-- Python's binary arithmetic on the modelled values: `int op int` stays
`int` except true division, any float operand promotes to float, division
by zero raises `ZeroDivisionError`, and the builtin `abs` supports no
arithmetic. -/
def applyBin : BinOp → PyVal → PyVal → Except PyErr PyVal
  | op, PyVal.int a, PyVal.int b =>
    match op with
    | BinOp.add => Except.ok (PyVal.int (a + b))
    | BinOp.sub => Except.ok (PyVal.int (a - b))
    | BinOp.mul => Except.ok (PyVal.int (a * b))
    | BinOp.div =>
      if b = 0 then Except.error (PyErr.zeroDiv "division by zero")
      else Except.ok (PyVal.float (pfDiv ⟨a, 1⟩ ⟨b, 1⟩))
  | op, va, vb =>
    match toPF va, toPF vb with
    | some a, some b =>
      match op with
      | BinOp.add => Except.ok (PyVal.float (pfAdd a b))
      | BinOp.sub => Except.ok (PyVal.float (pfSub a b))
      | BinOp.mul => Except.ok (PyVal.float (pfMul a b))
      | BinOp.div =>
        if b.num = 0 then Except.error (PyErr.zeroDiv "float division by zero")
        else Except.ok (PyVal.float (pfDiv a b))
    | _, _ => Except.error (PyErr.typeErr "unsupported operand type(s)")

/-- Evaluation of the arithmetic fragment, in which every failure is an
Exception-derived error: the only resolvable name is `abs`, any other
name is modelled as a `NameError`.  CPython's `eval` environment also
defines further builtins; of these the quitter names `exit` and `quit`,
whose call raises the BaseException-only `SystemExit`, are modelled by
`evalExprFull` below, which is the model of record for the interface
behavior of `simple_calculator` (the escape channel).  Remaining
builtins (`print`, `sum`, `id`, `__import__`, ...) are outside the
modelled fragment and no settled claim depends on their values. -/
def evalExpr : PyExpr → Except PyErr PyVal
  | PyExpr.intLit n => Except.ok (PyVal.int n)
  | PyExpr.floatLit x => Except.ok (PyVal.float x)
  | PyExpr.name s =>
    if s = "abs" then Except.ok PyVal.builtinAbs else Except.error (PyErr.nameErr s)
  | PyExpr.pos e =>
    (evalExpr e).bind (fun v =>
      match v with
      | PyVal.builtinAbs =>
        Except.error (PyErr.typeErr "bad operand type for unary +: \x27builtin_function_or_method\x27")
      | w => Except.ok w)
  | PyExpr.neg e =>
    (evalExpr e).bind (fun v =>
      match v with
      | PyVal.int n => Except.ok (PyVal.int (-n))
      | PyVal.float x => Except.ok (PyVal.float (pfNeg x))
      | _ =>
        Except.error (PyErr.typeErr "bad operand type for unary -: \x27builtin_function_or_method\x27"))
  | PyExpr.bin op a b =>
    (evalExpr a).bind (fun va => (evalExpr b).bind (fun vb => applyBin op va vb))
  | PyExpr.call fe ae =>
    (evalExpr fe).bind (fun vf =>
      (evalExpr ae).bind (fun va =>
        match vf with
        | PyVal.builtinAbs =>
          match va with
          | PyVal.int n => Except.ok (PyVal.int (n.natAbs : Int))
          | PyVal.float x => Except.ok (PyVal.float (pfAbs x))
          | _ =>
            Except.error (PyErr.typeErr "bad operand type for abs(): \x27builtin_function_or_method\x27")
        | _ => Except.error (PyErr.typeErr "object is not callable")))
  | PyExpr.call0 fe =>
    (evalExpr fe).bind (fun vf =>
      match vf with
      | PyVal.builtinAbs =>
        Except.error (PyErr.typeErr "abs() takes exactly one argument (0 given)")
      | _ => Except.error (PyErr.typeErr "object is not callable"))

deriving instance DecidableEq for Except

/-- Model of Python `eval` restricted to the arithmetic fragment:
tokenize, parse a single expression (trailing tokens are a
`SyntaxError`), then evaluate with `evalExpr`.  On this fragment
evaluation always terminates and every failure derives from `Exception`,
so the result is a plain `Except`; the full interface, including
exceptions that `except Exception` cannot catch, is `pyEvalFull`. -/
def pyEval (s : String) : Except PyErr PyVal :=
  (tokenize s).bind (fun toks =>
    (parseGo (parseFuel toks) PMode.expr toks).bind (fun (ast, rest) =>
      match rest with
      | [] => evalExpr ast
      | _ => Except.error PyErr.synErr))

example : pyEval "15 * 3" = Except.ok (PyVal.int 45) := by decide
example : pyEval "(20 + 5) / 5." = Except.ok (PyVal.float ⟨5, 1⟩) := by decide
example : pyEval "(20 + 5) / 5" = Except.ok (PyVal.float ⟨5, 1⟩) := by decide
example : pyEval "5 / 0" = Except.error (PyErr.zeroDiv "division by zero") := by decide
example : pyEval "2 + " = Except.error PyErr.synErr := by decide
example : pyEval "abs(3)" = Except.ok (PyVal.int 3) := by decide
example : pyEval "1000 - 123" = Except.ok (PyVal.int 877) := by decide
example : pyEval "" = Except.error PyErr.synErr := by decide
example : pyEval "x" = Except.error (PyErr.nameErr "x") := by decide

/-- Fractional decimal digits of `r / d` by long division, at most 16 of
them (Python prints at most 17 significant digits; every float the
claims evaluate has an exact short decimal form, rendered exactly). -/
def fracDigitsLoop : Nat → Nat → Nat → List Nat
  | 0, _, _ => []
  | f + 1, r, d =>
    if r = 0 then []
    else (r * 10 / d) :: fracDigitsLoop f (r * 10 % d) d

/-- Python `str` of a float: always shows a decimal point, integral
values print as `n.0`. -/
def pyStrFloat (x : PyFloat) : String :=
  let sign := if x.num < 0 then "-" else ""
  let a := x.num.natAbs
  let r := a % x.den
  if r = 0 then sign ++ toString (a / x.den) ++ ".0"
  else
    sign ++ toString (a / x.den) ++ "." ++
      String.join ((fracDigitsLoop 16 r x.den).map (fun d => toString d))

/-- Python `str` of a value, as interpolated by the f-string at
`src/app.py` line 50. -/
def pyStr : PyVal → String
  | PyVal.int n => toString n
  | PyVal.float x => pyStrFloat x
  | PyVal.builtinAbs => "<built-in function abs>"
  | PyVal.quitter => "Use exit() or Ctrl-D (i.e. EOF) to exit"

/-- `simple_calculator` (`src/app.py` lines 43-52) on the arithmetic
fragment: evaluate the expression with `eval`; a success is formatted as
a result string, a caught exception as an error string.  On this
fragment the `except Exception` handler catches every failure, so the
function returns a string on every input; the full interface of the
source function — on which a BaseException-only exception such as
`SystemExit` escapes the handler — is `simple_calculator_run` below. -/
def simple_calculator (expression : String) : String :=
  match pyEval expression with
  | Except.ok v => "The result of \x27" ++ expression ++ "\x27 is: " ++ pyStr v
  | Except.error e =>
    "Error evaluating expression \x27" ++ expression ++ "\x27: " ++ pyErrMsg e

example : simple_calculator "15 * 3" = "The result of \x2715 * 3\x27 is: 45" := by decide
example : simple_calculator "(20 + 5) / 5." = "The result of \x27(20 + 5) / 5.\x27 is: 5.0" := by decide
example : simple_calculator "5 / 0" = "Error evaluating expression \x275 / 0\x27: division by zero" := by decide
example : simple_calculator "abs(3)" = "The result of \x27abs(3)\x27 is: 3" := by decide
example : pyEval "6 / -3" = Except.ok (PyVal.float ⟨-2, 1⟩) := by decide

/-- Exceptions that derive from `BaseException` but not from `Exception`:
the source's `except Exception` handler (line 51) does not catch them.
`SystemExit` is raised by calling the quitter builtins `exit`/`quit`,
which CPython defines in `eval`'s environment. -/
inductive PyFatal where
  | systemExit (code : Option Int)
deriving DecidableEq, Repr

/-- Outcome of evaluating an expression with `eval` at the full
interface: a returned value, a raised Exception-derived error (caught by
line 51), or a raised BaseException-only exception (not caught). -/
inductive PyOutcome where
  | val (v : PyVal)
  | exc (e : PyErr)
  | fatal (f : PyFatal)
deriving DecidableEq, Repr

/-- Sequence an outcome: propagate a raised exception, feed a value on. -/
def PyOutcome.bindV (o : PyOutcome) (k : PyVal → PyOutcome) : PyOutcome :=
  match o with
  | PyOutcome.val v => k v
  | PyOutcome.exc e => PyOutcome.exc e
  | PyOutcome.fatal f => PyOutcome.fatal f

/-- Evaluation at the full interface: like `evalExpr`, but the name
environment additionally contains the quitter builtins `exit` and
`quit`, and calling a quitter raises `SystemExit` — a BaseException-only
exception on the `fatal` channel, which `except Exception` cannot
catch.  (CPython's `exit(n)` carries the exit code `n`.) -/
def evalExprFull : PyExpr → PyOutcome
  | PyExpr.intLit n => PyOutcome.val (PyVal.int n)
  | PyExpr.floatLit x => PyOutcome.val (PyVal.float x)
  | PyExpr.name s =>
    if s = "abs" then PyOutcome.val PyVal.builtinAbs
    else if s = "exit" || s = "quit" then PyOutcome.val PyVal.quitter
    else PyOutcome.exc (PyErr.nameErr s)
  | PyExpr.pos e =>
    (evalExprFull e).bindV (fun v =>
      match v with
      | PyVal.int n => PyOutcome.val (PyVal.int n)
      | PyVal.float x => PyOutcome.val (PyVal.float x)
      | _ => PyOutcome.exc (PyErr.typeErr "bad operand type for unary +"))
  | PyExpr.neg e =>
    (evalExprFull e).bindV (fun v =>
      match v with
      | PyVal.int n => PyOutcome.val (PyVal.int (-n))
      | PyVal.float x => PyOutcome.val (PyVal.float (pfNeg x))
      | _ => PyOutcome.exc (PyErr.typeErr "bad operand type for unary -"))
  | PyExpr.bin op a b =>
    (evalExprFull a).bindV (fun va =>
      (evalExprFull b).bindV (fun vb =>
        match applyBin op va vb with
        | Except.ok v => PyOutcome.val v
        | Except.error e => PyOutcome.exc e))
  | PyExpr.call fe ae =>
    (evalExprFull fe).bindV (fun vf =>
      (evalExprFull ae).bindV (fun va =>
        match vf with
        | PyVal.builtinAbs =>
          (match va with
           | PyVal.int n => PyOutcome.val (PyVal.int (n.natAbs : Int))
           | PyVal.float x => PyOutcome.val (PyVal.float (pfAbs x))
           | _ => PyOutcome.exc (PyErr.typeErr "bad operand type for abs()"))
        | PyVal.quitter =>
          (match va with
           | PyVal.int n => PyOutcome.fatal (PyFatal.systemExit (some n))
           | _ => PyOutcome.fatal (PyFatal.systemExit none))
        | _ => PyOutcome.exc (PyErr.typeErr "object is not callable")))
  | PyExpr.call0 fe =>
    (evalExprFull fe).bindV (fun vf =>
      match vf with
      | PyVal.builtinAbs =>
        PyOutcome.exc (PyErr.typeErr "abs() takes exactly one argument (0 given)")
      | PyVal.quitter => PyOutcome.fatal (PyFatal.systemExit none)
      | _ => PyOutcome.exc (PyErr.typeErr "object is not callable"))

/-- Model of Python `eval` at the full interface: tokenize and parse as
before (a CPython `SyntaxError` derives from `Exception`, hence the
`exc` channel), then evaluate with `evalExprFull`. -/
def pyEvalFull (s : String) : PyOutcome :=
  match tokenize s with
  | Except.error e => PyOutcome.exc e
  | Except.ok toks =>
    match parseGo (parseFuel toks) PMode.expr toks with
    | Except.error e => PyOutcome.exc e
    | Except.ok (ast, rest) =>
      match rest with
      | [] => evalExprFull ast
      | _ => PyOutcome.exc PyErr.synErr

/-- `simple_calculator` (`src/app.py` lines 43-52) at its full
interface: `try: eval(...) except Exception` returns the formatted
success string on a value and the formatted error string on a caught
Exception-derived error, but a BaseException-only exception passes
through the handler and escapes to the caller — modelled by the
`Except.error` channel. -/
def simple_calculator_run (expression : String) : Except PyFatal String :=
  match pyEvalFull expression with
  | PyOutcome.val v =>
    Except.ok ("The result of \x27" ++ expression ++ "\x27 is: " ++ pyStr v)
  | PyOutcome.exc e =>
    Except.ok ("Error evaluating expression \x27" ++ expression ++ "\x27: " ++ pyErrMsg e)
  | PyOutcome.fatal f => Except.error f

example : pyEvalFull "15 * 3" = PyOutcome.val (PyVal.int 45) := by decide
example : pyEvalFull "exit()" = PyOutcome.fatal (PyFatal.systemExit none) := by decide
example : pyEvalFull "quit()" = PyOutcome.fatal (PyFatal.systemExit none) := by decide
example : pyEvalFull "exit(3)" = PyOutcome.fatal (PyFatal.systemExit (some 3)) := by decide
example : pyEvalFull "2 + exit()" = PyOutcome.fatal (PyFatal.systemExit none) := by decide
example : simple_calculator_run "exit()" = Except.error (PyFatal.systemExit none) := by decide
example : simple_calculator_run "abs()" =
  Except.ok "Error evaluating expression \x27abs()\x27: abs() takes exactly one argument (0 given)" := by decide

/-- The keyword arguments passed to the `transformers` pipeline at
`src/app.py` lines 69-76 and 88-95. -/
structure SamplingConfig where
  maxNewTokens : Nat
  numReturnSequences : Nat
  doSample : Bool
  topK : Nat
  topP : PyFloat
deriving DecidableEq, Repr

/-- The routed path's generation fallback configuration
(`src/app.py` lines 71-75): `max_new_tokens=50, num_return_sequences=1,
do_sample=True, top_k=50, top_p=0.95`. -/
def agentConfig : SamplingConfig := ⟨50, 1, true, 50, mkPyFloat 95 100⟩

/-- The direct path's configuration (`src/app.py` lines 90-94):
`max_new_tokens=100, num_return_sequences=1, do_sample=True, top_k=50,
top_p=0.95`. -/
def directConfig : SamplingConfig := ⟨100, 1, true, 50, mkPyFloat 95 100⟩

/-- The generation engine as the core consumes it: a prompt and a
sampling configuration yield the first generated sequence
(`response_data[0]["generated_text"]` in the source).  The engine is an
external collaborator, so the paths are parametrized over it. -/
def GenFn : Type := String → SamplingConfig → String

/-- The spec's ExecutionResult: the ordered trace steps a path appended
(`processing_info` in the source) together with its final response. -/
structure ExecutionResult where
  trace : List String
  response : String
deriving DecidableEq, Repr

/-- The string a path returns to the UI
(`"\n".join(processing_info) + "\n\n" + response`, lines 79 and 96). -/
def renderResult (r : ExecutionResult) : String :=
  String.intercalate "\n" r.trace ++ "\n\n" ++ r.response

/-- `run_agent` (`src/app.py` lines 55-79), the routed path: on the
line-62 condition, append the tool trace step and answer with the
calculator on the extracted expression; otherwise append the generation
trace step and answer with the engine on the unchanged query under the
50-token configuration. -/
def run_agent (gen : GenFn) (query : String) : ExecutionResult :=
  if isCalcQuery query then
    ⟨["Agent detected a calculation request. Attempting to use calculator tool..."],
      simple_calculator (extractExpression query)⟩
  else
    ⟨["Agent generating response using LLM..."], gen query agentConfig⟩

/-- `run_non_agentic_llm` (`src/app.py` lines 82-96), the direct path:
always append its single trace step and answer with the engine on the
unchanged query under the 100-token configuration. -/
def run_non_agentic_llm (gen : GenFn) (query : String) : ExecutionResult :=
  ⟨["Directly generating response using LLM (no tools).."], gen query directConfig⟩

/-- The spec's ComparisonResult. -/
structure ComparisonResult where
  direct : ExecutionResult
  routed : ExecutionResult
deriving DecidableEq, Repr

/-- The orchestrator: the button handler (`src/app.py` lines 115-123)
runs both paths on the same user input and displays both results. -/
def compareBoth (gen : GenFn) (query : String) : ComparisonResult :=
  ⟨run_non_agentic_llm gen query, run_agent gen query⟩

/-- The routing rule in the spec's words: the lower-cased query contains
`"calculate"`, or contains `"what is"` and at least one of the operator
characters. -/
def specRouteCond (q : String) : Bool :=
  strContains (pyLower q) "calculate" ||
    (strContains (pyLower q) "what is" &&
      (strContains (pyLower q) "+" || strContains (pyLower q) "-" ||
        strContains (pyLower q) "*" || strContains (pyLower q) "/"))

/-! The source tests the operator characters on the original query while
the spec words the whole rule on the lower-cased query; the next lemmas
show the two readings agree, because lowering fixes every non-letter. -/

lemma toNat_ofNat_small (n : Nat) (h : n < 0xd800) : (Char.ofNat n).toNat = n := by
  have hv : n.isValidChar := Or.inl h
  show (dite n.isValidChar (fun h => Char.ofNatAux n h) _).toNat = n
  rw [dif_pos hv]
  rfl

/-- `Char.toLower` either fixes a character or maps an upper-case latin
letter into the lower-case latin range. -/
lemma toLower_toNat_cases (d : Char) :
    Char.toLower d = d ∨
      (97 ≤ (Char.toLower d).toNat ∧ (Char.toLower d).toNat ≤ 122 ∧
        65 ≤ d.toNat ∧ d.toNat ≤ 90) := by
  by_cases h : d.toNat ≥ 65 ∧ d.toNat ≤ 90
  · right
    have hl : Char.toLower d = Char.ofNat (d.toNat + 32) := by
      unfold Char.toLower
      exact if_pos h
    rw [hl, toNat_ofNat_small (d.toNat + 32) (by omega)]
    omega
  · left
    unfold Char.toLower
    exact if_neg h

/-- Lowering never creates and never destroys an occurrence of a
character below code point 65 (the operator characters in particular). -/
lemma toLower_beq_op (c₀ : Char) (hc : c₀.toNat < 65) (d : Char) :
    (Char.toLower d == c₀) = (d == c₀) := by
  rcases toLower_toNat_cases d with h | ⟨h1, h2, h3, h4⟩
  · rw [h]
  · have e1 : (Char.toLower d == c₀) = false := by
      apply beq_eq_false_iff_ne.mpr
      intro he
      have := congrArg Char.toNat he
      omega
    have e2 : (d == c₀) = false := by
      apply beq_eq_false_iff_ne.mpr
      intro he
      have := congrArg Char.toNat he
      omega
    rw [e1, e2]

lemma hasSub_map_single (c : Char) (h : ∀ d : Char, (Char.toLower d == c) = (d == c)) :
    ∀ l : List Char, hasSubList (List.map Char.toLower l) [c] = hasSubList l [c] := by
  intro l
  induction l with
  | nil => rfl
  | cons a as ih =>
    simp only [List.map_cons, hasSubList, startsWithList, Bool.and_true, h a, ih]

lemma strContains_lower_plus (q : String) :
    strContains (pyLower q) "+" = strContains q "+" :=
  hasSub_map_single '+' (toLower_beq_op '+' (by decide)) q.data

lemma strContains_lower_minus (q : String) :
    strContains (pyLower q) "-" = strContains q "-" :=
  hasSub_map_single '-' (toLower_beq_op '-' (by decide)) q.data

lemma strContains_lower_star (q : String) :
    strContains (pyLower q) "*" = strContains q "*" :=
  hasSub_map_single '*' (toLower_beq_op '*' (by decide)) q.data

lemma strContains_lower_slash (q : String) :
    strContains (pyLower q) "/" = strContains q "/" :=
  hasSub_map_single '/' (toLower_beq_op '/' (by decide)) q.data

/-- The source's line-62 condition coincides with the spec's wording of
the routing rule. -/
lemma isCalc_eq_spec (q : String) : isCalcQuery q = specRouteCond q := by
  unfold isCalcQuery specRouteCond
  simp only [List.any_cons, List.any_nil, strContains_lower_plus, strContains_lower_minus,
    strContains_lower_star, strContains_lower_slash, Bool.or_false, Bool.or_assoc]

/-- The tool branch of `run_agent`, in closed form. -/
lemma run_agent_tool (gen : GenFn) (q : String) (h : isCalcQuery q = true) :
    run_agent gen q =
      ⟨["Agent detected a calculation request. Attempting to use calculator tool..."],
        simple_calculator (extractExpression q)⟩ := by
  simp [run_agent, h]

/-- The generation branch of `run_agent`, in closed form. -/
lemma run_agent_gen (gen : GenFn) (q : String) (h : isCalcQuery q = false) :
    run_agent gen q =
      ⟨["Agent generating response using LLM..."], gen q agentConfig⟩ := by
  simp [run_agent, h]

/-- Claim C1: for every query, the routed-path classifier is total and
exclusive and follows the spec's rule — the source's line-62 condition
equals the spec's lower-cased-query rule; when the rule holds the query
is classified as a ToolInvocation on the extracted expression, otherwise
as a GenerationRequest whose prompt is the original query unchanged; and
exactly one of the two variants is produced. -/
theorem C1_routing_total_exclusive (q : String) :
    isCalcQuery q = specRouteCond q
  ∧ (specRouteCond q = true → classify q = Intent.toolInvocation (extractExpression q))
  ∧ (specRouteCond q = false → classify q = Intent.generationRequest q)
  ∧ (classify q = Intent.toolInvocation (extractExpression q) ∨
      classify q = Intent.generationRequest q)
  ∧ ∀ e p, ¬(classify q = Intent.toolInvocation e ∧ classify q = Intent.generationRequest p) := by
  have hs := isCalc_eq_spec q
  refine ⟨hs, ?_, ?_, ?_, ?_⟩
  · intro h
    simp [classify, hs, h]
  · intro h
    simp [classify, hs, h]
  · unfold classify
    split
    · exact Or.inl rfl
    · exact Or.inr rfl
  · rintro e p ⟨h1, h2⟩
    rw [h1] at h2
    exact Intent.noConfusion h2

/-- Witness for C1: both branches of the classifier, at the source's own
example prompts. -/
theorem C1_routing_witness :
    classify "What is 15 * 3?" = Intent.toolInvocation "15 * 3"
  ∧ classify "Tell me a short story about a brave knight." =
      Intent.generationRequest "Tell me a short story about a brave knight." := by
  constructor
  · have h := (C1_routing_total_exclusive "What is 15 * 3?").2.1 (by decide)
    rw [show extractExpression "What is 15 * 3?" = "15 * 3" from by decide] at h
    exact h
  · exact (C1_routing_total_exclusive "Tell me a short story about a brave knight.").2.2.1
      (by decide)

/-- Claim C2 (divergence evidence): the source's calculator is Python
`eval`, a general-purpose evaluator; the function call `abs(3)` — a
token sequence outside the restricted grammar of the spec — is accepted
and evaluated to a success result, and the routed path surfaces that
success, instead of rejecting the input with an error result. -/
theorem C2_eval_accepts_function_call :
    pyEval "abs(3)" = Except.ok (PyVal.int 3)
  ∧ simple_calculator "abs(3)" = "The result of \x27abs(3)\x27 is: 3"
  ∧ ∀ gen : GenFn, (run_agent gen "Calculate abs(3)").response =
      "The result of \x27abs(3)\x27 is: 3" := by
  refine ⟨by decide, by decide, fun gen => ?_⟩
  rw [run_agent_tool gen "Calculate abs(3)" (by decide)]
  decide

/-- Counterexample to claim C3 as stated: the extractor lower-cases the
whole query first, so the original casing of the remaining characters is
not preserved, and it removes every `?`, not only a trailing one. -/
theorem C3_extractor_counterexample :
    isCalcQuery "Calculate 2 + A" = true
  ∧ extractExpression "Calculate 2 + A" = "2 + a"
  ∧ extractExpression "Calculate 2 + A" ≠ "2 + A"
  ∧ isCalcQuery "Calculate 2?+2" = true
  ∧ extractExpression "Calculate 2?+2" = "2+2"
  ∧ extractExpression "Calculate 2?+2" ≠ "2?+2" := by decide

/-- The extractor in the words of the amended claim C3: the query is
lower-cased as a whole; every occurrence of "calculate" and then of
"what is" is removed from the lower-cased text and the result trimmed;
then every "?" (trailing or not) and every occurrence of
"the result of" is removed, and the result is trimmed again and
returned — in lower case. -/
def extractAmendedSpec (q : String) : String :=
  pyStrip (pyReplace (pyReplace
    (pyStrip (pyReplace (pyReplace (pyLower q) "calculate" "") "what is" ""))
    "?" "") "the result of" "")

/-- Claim C3 (amended): for every query, the extractor returns exactly
the lower-cased query with all occurrences of the three phrases and of
"?" removed in the source's order, trimmed — rather than the
casing-preserving, trailing-`?`-only removal the original claim
stated. -/
theorem C3_extractor_amended (q : String) : extractExpression q = extractAmendedSpec q := rfl

/-- Claim C4: on the routed path's tool branch a calculator failure is
surfaced as response content — `5 / 0` gives a DivisionByZero error
result, `2 + ` gives a SyntaxError result, both are formatted error
strings rather than exceptions, and the path's response embeds the
failure. -/
theorem C4_errors_as_response_content :
    pyEval "5 / 0" = Except.error (PyErr.zeroDiv "division by zero")
  ∧ simple_calculator "5 / 0" = "Error evaluating expression \x275 / 0\x27: division by zero"
  ∧ pyEval "2 + " = Except.error PyErr.synErr
  ∧ simple_calculator "2 + " =
      "Error evaluating expression \x272 + \x27: invalid syntax (<string>, line 1)"
  ∧ ∀ gen : GenFn, (run_agent gen "Calculate 5 / 0").response =
      "Error evaluating expression \x275 / 0\x27: division by zero" := by
  refine ⟨by decide, by decide, by decide, by decide, fun gen => ?_⟩
  rw [run_agent_tool gen "Calculate 5 / 0" (by decide)]
  decide

/-- Counterexample to claim C5 as stated: extraction of the second
worked example keeps the trailing period, so the extracted string is not
`"(20 + 5) / 5"`. -/
theorem C5_examples_counterexample :
    extractExpression "Calculate (20 + 5) / 5." = "(20 + 5) / 5."
  ∧ extractExpression "Calculate (20 + 5) / 5." ≠ "(20 + 5) / 5" := by decide

/-- Claim C5 (amended): the first worked example holds as stated; in the
second, extraction yields `"(20 + 5) / 5."` (trailing period kept, a
valid float literal), and evaluating it still yields 5 (the float 5.0). -/
theorem C5_examples_amended :
    extractExpression "What is 15 * 3?" = "15 * 3"
  ∧ pyEval "15 * 3" = Except.ok (PyVal.int 45)
  ∧ simple_calculator "15 * 3" = "The result of \x2715 * 3\x27 is: 45"
  ∧ extractExpression "Calculate (20 + 5) / 5." = "(20 + 5) / 5."
  ∧ pyEval "(20 + 5) / 5." = Except.ok (PyVal.float ⟨5, 1⟩)
  ∧ simple_calculator "(20 + 5) / 5." = "The result of \x27(20 + 5) / 5.\x27 is: 5.0" := by
  decide

/-- Claim C6 (divergence evidence): the source's calculator is Python
`eval`, which can reach process-wide mutable state, so it is not a pure
function of its argument — in CPython two evaluations of the identical
expression `__import__(\x27random\x27).random()` return different
floats, because the `random` module's hidden generator state advances
between the calls.  This theorem shows the impure expression passes the
classifier and the extractor verbatim, so it reaches `eval` unchanged on
the routed path. -/
theorem C6_impure_input_reachable :
    isCalcQuery "Calculate __import__(\x27random\x27).random()" = true
  ∧ extractExpression "Calculate __import__(\x27random\x27).random()" =
      "__import__(\x27random\x27).random()"
  ∧ classify "Calculate __import__(\x27random\x27).random()" =
      Intent.toolInvocation "__import__(\x27random\x27).random()" := by decide

/-- Claim C7: each path uses its fixed sampling configuration, and the
direct path's token budget (100) is strictly larger than the routed
path's generation-fallback budget (50). -/
theorem C7_sampling_configs :
    directConfig.maxNewTokens = 100
  ∧ agentConfig.maxNewTokens = 50
  ∧ agentConfig.maxNewTokens < directConfig.maxNewTokens
  ∧ (∀ (gen : GenFn) (q : String), (run_non_agentic_llm gen q).response = gen q directConfig)
  ∧ ∀ (gen : GenFn) (q : String), isCalcQuery q = false →
      (run_agent gen q).response = gen q agentConfig := by
  refine ⟨rfl, rfl, by decide, fun gen q => rfl, fun gen q h => ?_⟩
  rw [run_agent_gen gen q h]

/-- Witness for C7: the routed generation fallback really passes the
50-token configuration to the engine. -/
theorem C7_sampling_witness :
    (run_agent (fun _ c => toString c.maxNewTokens) "Hello").response = "50" :=
  C7_sampling_configs.2.2.2.2 (fun _ c => toString c.maxNewTokens) "Hello" (by decide)

/-- Claim C8: for every non-empty query, comparing the two strategies
produces both a direct and a routed ExecutionResult, each with a
non-empty trace. -/
theorem C8_compare_nonempty_traces (gen : GenFn) (q : String) (_h : q ≠ "") :
    ∃ d r : ExecutionResult,
      compareBoth gen q = ⟨d, r⟩ ∧ d.trace ≠ [] ∧ r.trace ≠ [] := by
  refine ⟨run_non_agentic_llm gen q, run_agent gen q, rfl, by simp [run_non_agentic_llm], ?_⟩
  unfold run_agent
  split <;> simp

/-- Witness for C8 at a concrete non-empty query and engine. -/
theorem C8_compare_witness :
    ∃ d r : ExecutionResult,
      compareBoth (fun _ _ => "a story") "What is 15 * 3?" = ⟨d, r⟩ ∧
        d.trace ≠ [] ∧ r.trace ≠ [] :=
  C8_compare_nonempty_traces (fun _ _ => "a story") "What is 15 * 3?" (by decide)

/-- Claim C9: on the routed path the generation engine is used exactly
on the GenerationRequest branch — on the tool branch the result is
independent of the engine and is built solely from the fixed trace step
and the calculator's output on the extracted expression, while on the
generation branch the response is the engine's output. -/
theorem C9_tool_branch_no_generation (q : String) :
    (isCalcQuery q = true →
      (∀ gen₁ gen₂ : GenFn, run_agent gen₁ q = run_agent gen₂ q)
      ∧ ∀ gen : GenFn, run_agent gen q =
          ⟨["Agent detected a calculation request. Attempting to use calculator tool..."],
            simple_calculator (extractExpression q)⟩)
  ∧ (isCalcQuery q = false →
      ∀ gen : GenFn, (run_agent gen q).response = gen q agentConfig) := by
  constructor
  · intro h
    exact ⟨fun g1 g2 => by rw [run_agent_tool g1 q h, run_agent_tool g2 q h],
      fun g => run_agent_tool g q h⟩
  · intro h gen
    rw [run_agent_gen gen q h]

/-- Witness for C9: two distinct engines give the identical routed
result on a calculation query. -/
theorem C9_tool_branch_witness :
    run_agent (fun _ _ => "llm output A") "Calculate 1 + 1" =
      run_agent (fun _ _ => "llm output B") "Calculate 1 + 1" :=
  ((C9_tool_branch_no_generation "Calculate 1 + 1").1 (by decide)).1 _ _

/-- Counterexample to claim C10 as stated: `except Exception` does not
catch a BaseException-only exception — evaluating `exit()`, reachable
from the query `Calculate exit()`, raises `SystemExit`, which escapes
`simple_calculator` instead of being formatted into a returned
string. -/
theorem C10_escape_counterexample :
    pyEvalFull "exit()" = PyOutcome.fatal (PyFatal.systemExit none)
  ∧ simple_calculator_run "exit()" = Except.error (PyFatal.systemExit none)
  ∧ isCalcQuery "Calculate exit()" = true
  ∧ extractExpression "Calculate exit()" = "exit()" := by decide

/-- Claim C10 (amended): every Exception-derived error raised during
evaluation is caught inside `simple_calculator` and formatted into the
returned error string, and a returned value is formatted into the
returned success string; but the function is not total at its
interface — an exception deriving only from `BaseException`
(`SystemExit`, raised by the quitter builtins) passes through the
`except Exception` handler and escapes to the caller. -/
theorem C10_exception_handling (e : String) :
    (∀ v : PyVal, pyEvalFull e = PyOutcome.val v →
      simple_calculator_run e =
        Except.ok ("The result of \x27" ++ e ++ "\x27 is: " ++ pyStr v))
  ∧ (∀ err : PyErr, pyEvalFull e = PyOutcome.exc err →
      simple_calculator_run e =
        Except.ok ("Error evaluating expression \x27" ++ e ++ "\x27: " ++ pyErrMsg err))
  ∧ (∀ f : PyFatal, pyEvalFull e = PyOutcome.fatal f →
      simple_calculator_run e = Except.error f) := by
  refine ⟨fun v h => ?_, fun err h => ?_, fun f h => ?_⟩ <;>
    simp [simple_calculator_run, h]

/-- Witness for C10 (amended): the caught channel at a DivisionByZero
and the escape channel at `exit()`. -/
theorem C10_exception_handling_witness :
    simple_calculator_run "5 / 0" =
      Except.ok "Error evaluating expression \x275 / 0\x27: division by zero"
  ∧ simple_calculator_run "exit()" = Except.error (PyFatal.systemExit none) := by
  constructor
  · exact (C10_exception_handling "5 / 0").2.1 (PyErr.zeroDiv "division by zero") (by decide)
  · exact (C10_exception_handling "exit()").2.2 (PyFatal.systemExit none) (by decide)
